import Mathlib

/-!
Verification of the trip-profile persistence and naming model of
`src/app.py` (a Streamlit road-trip planner).

The Python code manipulates insertion-ordered string-keyed dictionaries
(`dict`), JSON-representable values, and a flat JSON file.  The shallow
embedding below models:

* Python dictionaries as association lists (`PyDict`) with Python 3.7+
  semantics: lookup finds the first binding, assignment replaces an
  existing binding in place, otherwise appends; deletion removes the
  binding;
* JSON-representable Python values as the inductive type `Json`
  (numbers are modelled as exact rationals: every numeric literal in the
  program is a small decimal, and the program never computes with them,
  it only stores and retrieves them);
* the durable storage file as a `FileState` (missing, undecodable, or
  holding a decoded JSON value).  The text encoding and decoding is done
  by Python's `json` standard library, which is external to this
  repository; it is modelled at the value level by its contract that
  `json.load` recovers the value passed to `json.dump`.

All functions are translated from `src/app.py`; line numbers refer to
that file.
-/

/-- Python dictionary with string keys, modelled as an insertion-ordered
association list.  In Python keys are unique; the operations below also
behave correctly (first-binding-wins) on lists with duplicate keys. -/
abbrev PyDict (α : Type) : Type := List (String × α)

/-- Python `d.get(k)` returning the first binding for `k`, if any. -/
def PyDict.get? {α : Type} : PyDict α → String → Option α
  | [], _ => none
  | (k', v) :: rest, k => if k' = k then some v else PyDict.get? rest k

/-- Python `d.get(k, default)`. -/
def PyDict.getD {α : Type} (d : PyDict α) (k : String) (v₀ : α) : α :=
  (PyDict.get? d k).getD v₀

/-- Python `d[k] = v`: replace the first binding for `k` in place,
otherwise append the new binding at the end (Python 3.7+ dicts preserve
insertion order). -/
def PyDict.set {α : Type} : PyDict α → String → α → PyDict α
  | [], k, v => [(k, v)]
  | (k', v') :: rest, k, v =>
    if k' = k then (k, v) :: rest else (k', v') :: PyDict.set rest k v

/-- Python `del d[k]`: remove the first binding for `k`. -/
def PyDict.erase {α : Type} : PyDict α → String → PyDict α
  | [], _ => []
  | (k', v) :: rest, k => if k' = k then rest else (k', v) :: PyDict.erase rest k

/-- Python `k in d` (key membership). -/
def PyDict.contains {α : Type} (d : PyDict α) (k : String) : Bool :=
  (PyDict.get? d k).isSome

/-- Python `list(d.keys())`. -/
def PyDict.keys {α : Type} (d : PyDict α) : List String :=
  d.map Prod.fst

/-- JSON-representable Python values, as stored in trip profiles and in
the durable file.  Numbers are exact rationals (see the file header). -/
inductive Json : Type where
  | null : Json
  | bool (b : Bool) : Json
  | num (q : ℚ) : Json
  | str (s : String) : Json
  | arr (elems : List Json) : Json
  | obj (fields : List (String × Json)) : Json

/-- Field access on a JSON object: `j[k]` when `j` is an object holding
key `k`. -/
def Json.getField : Json → String → Option Json
  | Json.obj fields, k => PyDict.get? fields k
  | _, _ => none

/-- The whole persisted state: username to (trip name to trip profile),
where a trip profile is a JSON object (a Python dict). -/
abbrev TripStore : Type := PyDict (PyDict Json)

/-- State of the durable storage file `saved_trips.json`: absent,
present but not valid JSON, or holding (the decoding of) a JSON value. -/
inductive FileState : Type where
  | missing : FileState
  | corrupt (raw : String) : FileState
  | content (j : Json) : FileState

/-- Translation of `load_all_trips` (app.py lines 25-33): if the file
does not exist, return `{}`; if `json.load` raises (any decode failure),
catch everything and return `{}`; otherwise return the decoded value.
The function is total: it never raises to its caller. -/
def load_all_trips : FileState → Json
  | FileState.missing => Json.obj []
  | FileState.corrupt _ => Json.obj []
  | FileState.content j => j

/-- Translation of `save_all_trips` (app.py lines 36-43): replace the
file contents with the JSON encoding of `trips`.  On an I/O failure the
code reports the error with `st.error` and leaves whatever the file
system did; `ioOk` selects the successful branch. -/
def save_all_trips (trips : Json) (ioOk : Bool) (file : FileState) : FileState :=
  if ioOk then FileState.content trips else file

/-- Translation of `get_user_trips` (app.py lines 45-47):
`all_trips.get(username, {})`. -/
def get_user_trips (username : String) (all_trips : TripStore) : PyDict Json :=
  PyDict.getD all_trips username []

/-- Translation of `set_user_trips` (app.py lines 50-53):
`all_trips[username] = user_trips; return all_trips`. -/
def set_user_trips (username : String) (user_trips : PyDict Json)
    (all_trips : TripStore) : TripStore :=
  PyDict.set all_trips username user_trips

/-- Encoding of a typed `TripStore` as the JSON value that
`save_all_trips` writes: an object of objects. -/
def encodeStore (s : TripStore) : Json :=
  Json.obj (s.map (fun p => (p.1, Json.obj p.2)))

/-- Reading one user's sub-map back from JSON. -/
def decodeUserTrips : Json → Option (PyDict Json)
  | Json.obj fields => some fields
  | _ => none

/-- Reading the per-user bindings of the store back from JSON fields. -/
def decodeUsers : PyDict Json → Option TripStore
  | [] => some []
  | (u, j) :: rest =>
    match decodeUserTrips j, decodeUsers rest with
    | some m, some s => some ((u, m) :: s)
    | _, _ => none

/-- Reading a whole `TripStore` back from the JSON value in the file. -/
def decodeStore : Json → Option TripStore
  | Json.obj users => decodeUsers users
  | _ => none

/-- The candidate name built by the loop body of
`generate_unique_trip_name`: the Python f-string
`f"{base_name} ({counter})"`, that is a space, an open paren, the
decimal numeral of the counter, and a close paren. -/
def trip_name_candidate (base_name : String) (counter : Nat) : String :=
  base_name ++ " (" ++ Nat.repr counter ++ ")"

/-- Bounded unrolling of the `while True` loop of
`generate_unique_trip_name` (app.py lines 64-69), starting at counter
`k`: try `f"{base_name} ({k})"`, `f"{base_name} ({k+1})"`, ... and
return the first candidate not in `existing_names`; `none` when `fuel`
iterations were not enough.  The loop always exits within
`existing_names.length + 1` iterations (theorem `searchUnique_total`
below), so with that fuel this is exactly the source's loop. -/
def searchUnique (base_name : String) (existing_names : List String) :
    Nat → Nat → Option String
  | 0, _ => none
  | fuel + 1, k =>
    let candidate := trip_name_candidate base_name k
    if candidate ∈ existing_names then searchUnique base_name existing_names fuel (k + 1)
    else some candidate

/-- Translation of `generate_unique_trip_name` (app.py lines 56-69): if
`base_name` is not in `existing_names`, return it; otherwise run the
counter loop from 1.  The `getD` fallback is dead code: the loop always
returns a candidate (theorem `searchUnique_total`). -/
def generate_unique_trip_name (base_name : String) (existing_names : List String) :
    String :=
  if base_name ∈ existing_names then
    (searchUnique base_name existing_names (existing_names.length + 1) 1).getD base_name
  else base_name

/-- Translation of `new_empty_trip` (app.py lines 75-97).  The float
literals `5.0` and `2.0` are the exact rationals 5 and 2. -/
def new_empty_trip : PyDict Json :=
  [("trip_name", Json.str ""),
   ("origin", Json.str "Bowie, MD"),
   ("destination", Json.str "Miami, FL"),
   ("trip_direction", Json.str "round_trip"),
   ("total_days_available", Json.num 10),
   ("max_daily_drive_hours", Json.num 5),
   ("driving_days_preference", Json.str "balanced"),
   ("overnight_stop_distance_style", Json.str "evenly_spread"),
   ("overall_trip_budget", Json.null),
   ("lodging_budget_per_night", Json.null),
   ("food_budget_per_day_per_person", Json.null),
   ("lodging_style", Json.str "upscale"),
   ("travelers_description", Json.str "2 adults, no kids"),
   ("mobility_or_special_needs", Json.str ""),
   ("auto_discovery_categories", Json.arr []),
   ("default_max_detour_hours", Json.num 2),
   ("points_of_interest", Json.arr []),
   ("planning_focus", Json.str "balanced"),
   ("output_detail_level", Json.str "daily_outline")]

/-- Translation of `build_yaml_from_trip` (app.py lines 174-216) at the
value level: the nested `yaml_obj` that the source hands to
`yaml.dump(yaml_obj, sort_keys=False)`.  The text rendering belongs to
the external `yaml` library; the document structure, key order and
default substitution are all decided by this value.  Each field is
Python `trip.get(key)` (default `None`) or `trip.get(key, default)`. -/
def build_yaml_from_trip (trip : PyDict Json) : Json :=
  Json.obj
    [("version", Json.str "1.1"),
     ("agent_name", Json.str "roadtrip_trip_planner"),
     ("description", Json.str "User-provided configuration for a road-trip planner AI."),
     ("trip_config", Json.obj
       [("trip_name", PyDict.getD trip "trip_name" Json.null),
        ("origin", PyDict.getD trip "origin" Json.null),
        ("destination", PyDict.getD trip "destination" Json.null),
        ("trip_direction", PyDict.getD trip "trip_direction" (Json.str "round_trip")),
        ("total_days_available", PyDict.getD trip "total_days_available" Json.null),
        ("max_daily_drive_hours", PyDict.getD trip "max_daily_drive_hours" Json.null),
        ("driving_days_preference",
          PyDict.getD trip "driving_days_preference" (Json.str "balanced")),
        ("overnight_stop_distance_style",
          PyDict.getD trip "overnight_stop_distance_style" (Json.str "evenly_spread")),
        ("overall_trip_budget", PyDict.getD trip "overall_trip_budget" Json.null),
        ("lodging_budget_per_night", PyDict.getD trip "lodging_budget_per_night" Json.null),
        ("food_budget_per_day_per_person",
          PyDict.getD trip "food_budget_per_day_per_person" Json.null),
        ("lodging_style", PyDict.getD trip "lodging_style" (Json.str "upscale")),
        ("travelers_description", PyDict.getD trip "travelers_description" Json.null),
        ("mobility_or_special_needs",
          PyDict.getD trip "mobility_or_special_needs" Json.null),
        ("auto_discovery_categories",
          PyDict.getD trip "auto_discovery_categories" (Json.arr [])),
        ("default_max_detour_hours",
          PyDict.getD trip "default_max_detour_hours" (Json.num 2)),
        ("points_of_interest", PyDict.getD trip "points_of_interest" (Json.arr [])),
        ("planning_focus", PyDict.getD trip "planning_focus" (Json.str "balanced")),
        ("output_detail_level",
          PyDict.getD trip "output_detail_level" (Json.str "daily_outline"))])]

/-- The per-field serializer defaults, spelled following the spec's
words (section 4.4: the trip fields in the fixed declaration order of
section 3, each with the default the serializer substitutes when the
field is absent).  Used to compare the source serializer against the
spec's description of it. -/
def tripConfigDefaults : PyDict Json :=
  [("trip_name", Json.null),
   ("origin", Json.null),
   ("destination", Json.null),
   ("trip_direction", Json.str "round_trip"),
   ("total_days_available", Json.null),
   ("max_daily_drive_hours", Json.null),
   ("driving_days_preference", Json.str "balanced"),
   ("overnight_stop_distance_style", Json.str "evenly_spread"),
   ("overall_trip_budget", Json.null),
   ("lodging_budget_per_night", Json.null),
   ("food_budget_per_day_per_person", Json.null),
   ("lodging_style", Json.str "upscale"),
   ("travelers_description", Json.null),
   ("mobility_or_special_needs", Json.null),
   ("auto_discovery_categories", Json.arr []),
   ("default_max_detour_hours", Json.num 2),
   ("points_of_interest", Json.arr []),
   ("planning_focus", Json.str "balanced"),
   ("output_detail_level", Json.str "daily_outline")]

/-- The trip-configuration mapping as the spec describes it: every trip
field in declaration order, taking the trip's stored value where
present and the declared default where absent, with no other
transformation. -/
def tripConfigOfSpec (trip : PyDict Json) : PyDict Json :=
  tripConfigDefaults.map (fun p => (p.1, PyDict.getD trip p.1 p.2))

/-- The characters Python's `str.isspace()` accepts, which is exactly
the set `str.strip()` with no argument removes: horizontal tab through
carriage return (U+0009 to U+000D), the file, group, record and unit
separators (U+001C to U+001F), space, next line (U+0085), no-break
space (U+00A0), Ogham space mark (U+1680), the typographic spaces
U+2000 to U+200A, line separator (U+2028), paragraph separator
(U+2029), narrow no-break space (U+202F), medium mathematical space
(U+205F) and ideographic space (U+3000). -/
def pyIsSpace (c : Char) : Bool :=
  (Nat.ble 0x09 c.toNat && Nat.ble c.toNat 0x0D) || c.toNat == 0x20 ||
  (Nat.ble 0x1C c.toNat && Nat.ble c.toNat 0x1F) || c.toNat == 0x85 ||
  c.toNat == 0xA0 || c.toNat == 0x1680 ||
  (Nat.ble 0x2000 c.toNat && Nat.ble c.toNat 0x200A) ||
  c.toNat == 0x2028 || c.toNat == 0x2029 || c.toNat == 0x202F ||
  c.toNat == 0x205F || c.toNat == 0x3000

/-- Python `s.strip()` with no argument: remove leading and trailing
characters for which `str.isspace()` holds (see `pyIsSpace`). -/
def pyStrip (s : String) : String :=
  (((s.data.dropWhile pyIsSpace).reverse.dropWhile pyIsSpace).reverse).asString

/-- Outcome of one click of the save button. -/
inductive SaveOutcome : Type where
  | warnedEmptyName : SaveOutcome
  | saved (name : String) : SaveOutcome

/-- Translation of the save handler (app.py lines 474-496), acting on
the store decoded from disk (`all_trips` after `load_all_trips` and
shape decoding).  Returns the updated store, the updated session trip
(the handler rewrites `trip["trip_name"]` to the resolved unique name
before inserting), and the outcome; `none` models the `KeyError` or
`AttributeError` the Python code would raise when the session trip has
no string under `"trip_name"` (unreachable in normal use, since the
form always binds a string there). -/
def save_handler (current_user : String) (trip : PyDict Json)
    (all_trips : TripStore) : Option (TripStore × PyDict Json × SaveOutcome) :=
  match PyDict.get? trip "trip_name" with
  | some (Json.str name) =>
    if pyStrip name = "" then some (all_trips, trip, SaveOutcome.warnedEmptyName)
    else
      let user_trips := get_user_trips current_user all_trips
      let base_name := pyStrip name
      let unique_name := generate_unique_trip_name base_name (PyDict.keys user_trips)
      let trip2 := PyDict.set trip "trip_name" (Json.str unique_name)
      let user_trips2 := PyDict.set user_trips unique_name (Json.obj trip2)
      some (set_user_trips current_user user_trips2 all_trips, trip2,
            SaveOutcome.saved unique_name)
  | _ => none

/-- Outcome of one click of the delete button. -/
inductive DeleteOutcome : Type where
  | warnedNoSelection : DeleteOutcome
  | deleted : DeleteOutcome
  | errorNotFound : DeleteOutcome

/-- Translation of the delete handler (app.py lines 498-519), acting on
the store decoded from disk: with the sentinel `"<New Trip>"` selected
it only warns; with a selected name present in the user's map it
deletes and persists; otherwise it shows "Selected trip not found." and
performs no mutation. -/
def delete_handler (current_user selected_name : String)
    (all_trips : TripStore) : TripStore × DeleteOutcome :=
  if selected_name = "<New Trip>" then (all_trips, DeleteOutcome.warnedNoSelection)
  else
    let user_trips := get_user_trips current_user all_trips
    if PyDict.contains user_trips selected_name then
      (set_user_trips current_user (PyDict.erase user_trips selected_name) all_trips,
       DeleteOutcome.deleted)
    else (all_trips, DeleteOutcome.errorNotFound)

/-- Reading a list of decimal digit characters back to the number. -/
def readDigits (l : List Char) : Nat :=
  l.foldl (fun a c => 10 * a + (c.toNat - 48)) 0

/-! ### Dictionary lemmas -/

theorem PyDict.get?_set_self {α : Type} (d : PyDict α) (k : String) (v : α) :
    PyDict.get? (PyDict.set d k v) k = some v := by
  induction d with
  | nil => simp [PyDict.set, PyDict.get?]
  | cons p rest ih =>
    obtain ⟨k', v'⟩ := p
    by_cases h : k' = k
    · simp [PyDict.set, PyDict.get?, h]
    · simp [PyDict.set, PyDict.get?, h, ih]

theorem PyDict.get?_set_ne {α : Type} (d : PyDict α) (k k₂ : String) (v : α)
    (h : k₂ ≠ k) : PyDict.get? (PyDict.set d k v) k₂ = PyDict.get? d k₂ := by
  have h' : ¬ k = k₂ := fun e => h e.symm
  induction d with
  | nil => simp [PyDict.set, PyDict.get?, h']
  | cons p rest ih =>
    obtain ⟨k', v'⟩ := p
    by_cases hk : k' = k
    · subst hk
      simp [PyDict.set, PyDict.get?, h']
    · by_cases hk₂ : k' = k₂
      · simp [PyDict.set, PyDict.get?, hk, hk₂, h]
      · simp [PyDict.set, PyDict.get?, hk, hk₂, ih]

/-- Reading back the sub-map just written for a user. -/
theorem get_user_trips_set_same (u : String) (m : PyDict Json) (s : TripStore) :
    get_user_trips u (set_user_trips u m s) = m := by
  simp [get_user_trips, set_user_trips, PyDict.getD, PyDict.get?_set_self]

/-- Writing one user's sub-map leaves every other user's sub-map as it
was. -/
theorem get_user_trips_set_other (u v : String) (m : PyDict Json) (s : TripStore)
    (h : v ≠ u) : get_user_trips v (set_user_trips u m s) = get_user_trips v s := by
  simp [get_user_trips, set_user_trips, PyDict.getD, PyDict.get?_set_ne _ _ _ _ h]

/-! ### Decimal numerals

`generate_unique_trip_name` terminates because distinct counters give
distinct candidate names; that rests on the injectivity of the decimal
numeral `Nat.repr`, proved here through a verified digit reader. -/

theorem toDigitsCore_accumulator (b : Nat) :
    ∀ (fuel n : Nat) (ds : List Char),
      Nat.toDigitsCore b fuel n ds = Nat.toDigitsCore b fuel n [] ++ ds := by
  intro fuel
  induction fuel with
  | zero => intro n ds; simp [Nat.toDigitsCore]
  | succ fuel ih =>
    intro n ds
    by_cases h : n / b = 0
    · simp [Nat.toDigitsCore, h]
    · simp only [Nat.toDigitsCore, h, if_false]
      rw [ih (n / b) (Nat.digitChar (n % b) :: ds),
          ih (n / b) [Nat.digitChar (n % b)], List.append_assoc]
      rfl

theorem toDigitsCore_fuel_irrelevant :
    ∀ (n f₁ f₂ : Nat), n < f₁ → n < f₂ →
      Nat.toDigitsCore 10 f₁ n [] = Nat.toDigitsCore 10 f₂ n [] := by
  intro n
  induction n using Nat.strong_induction_on with
  | _ n ih =>
    intro f₁ f₂ h₁ h₂
    obtain ⟨g₁, rfl⟩ : ∃ g, f₁ = g + 1 := ⟨f₁ - 1, by omega⟩
    obtain ⟨g₂, rfl⟩ : ∃ g, f₂ = g + 1 := ⟨f₂ - 1, by omega⟩
    by_cases h : n / 10 = 0
    · simp [Nat.toDigitsCore, h]
    · have hdiv : n / 10 < n := by omega
      simp only [Nat.toDigitsCore, h, if_false]
      rw [toDigitsCore_accumulator 10 g₁ (n / 10) [Nat.digitChar (n % 10)],
          toDigitsCore_accumulator 10 g₂ (n / 10) [Nat.digitChar (n % 10)],
          ih (n / 10) hdiv g₁ g₂ (by omega) (by omega)]

theorem digitChar_toNat (m : Nat) (h : m < 10) : (Nat.digitChar m).toNat = 48 + m := by
  interval_cases m <;> rfl

theorem readDigits_toDigits (n : Nat) : readDigits (Nat.toDigits 10 n) = n := by
  induction n using Nat.strong_induction_on with
  | _ n ih =>
    by_cases h : n / 10 = 0
    · have hn : n < 10 := by omega
      have hmod : n % 10 = n := Nat.mod_eq_of_lt hn
      simp [Nat.toDigits, Nat.toDigitsCore, h, readDigits, hmod,
            digitChar_toNat n hn]
    · have hdiv : n / 10 < n := by omega
      have step : Nat.toDigits 10 n = Nat.toDigits 10 (n / 10) ++ [Nat.digitChar (n % 10)] := by
        show Nat.toDigitsCore 10 (n + 1) n [] = _
        simp only [Nat.toDigitsCore, h, if_false]
        rw [toDigitsCore_accumulator 10 n (n / 10) [Nat.digitChar (n % 10)]]
        rw [toDigitsCore_fuel_irrelevant (n / 10) n (n / 10 + 1) (by omega) (by omega)]
        rfl
      rw [step]
      have hread : readDigits (Nat.toDigits 10 (n / 10) ++ [Nat.digitChar (n % 10)]) =
          10 * readDigits (Nat.toDigits 10 (n / 10)) + ((Nat.digitChar (n % 10)).toNat - 48) := by
        simp [readDigits, List.foldl_append]
      rw [hread, ih (n / 10) hdiv, digitChar_toNat (n % 10) (by omega)]
      omega

theorem repr_injective_nat : Function.Injective Nat.repr := by
  intro m n h
  have hdata : Nat.toDigits 10 m = Nat.toDigits 10 n := congrArg String.data h
  calc m = readDigits (Nat.toDigits 10 m) := (readDigits_toDigits m).symm
    _ = readDigits (Nat.toDigits 10 n) := by rw [hdata]
    _ = n := readDigits_toDigits n

/-! ### Candidate names -/

/-- Character data of a candidate name: the base, a space, an open
paren, the counter's digits, and a close paren. -/
theorem trip_name_candidate_data (base : String) (k : Nat) :
    (trip_name_candidate base k).data =
      (base.data ++ [' ', '('] ++ (Nat.repr k).data) ++ [')'] := by
  simp [trip_name_candidate, String.data_append]

/-- Distinct counters give distinct candidate names. -/
theorem trip_name_candidate_injective (base : String) (j k : Nat)
    (h : trip_name_candidate base j = trip_name_candidate base k) : j = k := by
  have hdata := congrArg String.data h
  rw [trip_name_candidate_data, trip_name_candidate_data] at hdata
  have h₁ : base.data ++ [' ', '('] ++ (Nat.repr j).data =
      base.data ++ [' ', '('] ++ (Nat.repr k).data :=
    (List.append_inj' hdata rfl).1
  have h₂ : (Nat.repr j).data = (Nat.repr k).data :=
    List.append_inj_right h₁ rfl
  exact repr_injective_nat (String.ext h₂)

/-- A candidate name never equals the reserved sentinel: it ends in a
close paren, the sentinel ends in a closing angle bracket. -/
theorem trip_name_candidate_ne_sentinel (base : String) (k : Nat) :
    trip_name_candidate base k ≠ "<New Trip>" := by
  intro h
  have hdata := congrArg String.data h
  rw [trip_name_candidate_data] at hdata
  have hlast := congrArg List.getLast? hdata
  rw [List.getLast?_concat] at hlast
  simp at hlast

/-! ### The naming loop -/

/-- What the loop returns when some candidate within reach of the fuel
is free: the first free candidate at or after the starting counter. -/
theorem searchUnique_first_free (base : String) (existing : List String) :
    ∀ (fuel k : Nat),
      (∃ j, k ≤ j ∧ j < k + fuel ∧ trip_name_candidate base j ∉ existing) →
      ∃ j, k ≤ j ∧ trip_name_candidate base j ∉ existing ∧
        (∀ i, k ≤ i → i < j → trip_name_candidate base i ∈ existing) ∧
        searchUnique base existing fuel k = some (trip_name_candidate base j) := by
  intro fuel
  induction fuel with
  | zero =>
    intro k ⟨j, hkj, hlt, _⟩
    omega
  | succ fuel ih =>
    intro k hex
    by_cases hmem : trip_name_candidate base k ∈ existing
    · have hex' : ∃ j, k + 1 ≤ j ∧ j < (k + 1) + fuel ∧
          trip_name_candidate base j ∉ existing := by
        obtain ⟨j, hkj, hlt, hfree⟩ := hex
        have : j ≠ k := fun e => hfree (e ▸ hmem)
        exact ⟨j, by omega, by omega, hfree⟩
      obtain ⟨j, hkj, hfree, hmin, heq⟩ := ih (k + 1) hex'
      refine ⟨j, by omega, hfree, ?_, ?_⟩
      · intro i hki hij
        rcases Nat.eq_or_lt_of_le hki with he | hlt
        · exact he ▸ hmem
        · exact hmin i hlt hij
      · simpa [searchUnique, hmem] using heq
    · exact ⟨k, Nat.le_refl k, hmem, fun i hki hik => by omega,
        by simp [searchUnique, hmem]⟩

/-- Pigeonhole: among the first `existing.length + 1` candidates, at
least one is not in `existing` (candidates are pairwise distinct). -/
theorem exists_free_candidate (base : String) (existing : List String) :
    ∃ k, 1 ≤ k ∧ k ≤ existing.length + 1 ∧
      trip_name_candidate base k ∉ existing := by
  by_contra hall
  push_neg at hall
  have hsub : ((List.range (existing.length + 1)).map
      (fun i => trip_name_candidate base (i + 1))) ⊆ existing := by
    intro x hx
    obtain ⟨i, hi, rfl⟩ := List.mem_map.mp hx
    have hi' : i < existing.length + 1 := List.mem_range.mp hi
    exact hall (i + 1) (by omega) (by omega)
  have hnodup : ((List.range (existing.length + 1)).map
      (fun i => trip_name_candidate base (i + 1))).Nodup := by
    refine List.Nodup.map ?_ (List.nodup_range _)
    intro a b hab
    have := trip_name_candidate_injective base (a + 1) (b + 1) hab
    omega
  have hle := (List.subperm_of_subset hnodup hsub).length_le
  simp at hle

/-- The `while True` loop of `generate_unique_trip_name` always exits:
with fuel `existing.length + 1` the bounded unrolling already returns a
result. -/
theorem searchUnique_total (base : String) (existing : List String) :
    (searchUnique base existing (existing.length + 1) 1).isSome := by
  obtain ⟨k, h1, hle, hfree⟩ := exists_free_candidate base existing
  obtain ⟨j, _, _, _, heq⟩ := searchUnique_first_free base existing
    (existing.length + 1) 1 ⟨k, h1, by omega, hfree⟩
  simp [heq]

/-- Characterization of `generate_unique_trip_name` on a colliding base
name: it returns the candidate of the least counter `k ≥ 1` whose
candidate is free. -/
theorem generate_unique_eq_of_mem (base : String) (existing : List String)
    (h : base ∈ existing) :
    ∃ k, 1 ≤ k ∧
      generate_unique_trip_name base existing = trip_name_candidate base k ∧
      trip_name_candidate base k ∉ existing ∧
      ∀ j, 1 ≤ j → j < k → trip_name_candidate base j ∈ existing := by
  obtain ⟨k₀, h1, hle, hfree⟩ := exists_free_candidate base existing
  obtain ⟨j, hj1, hjfree, hjmin, heq⟩ := searchUnique_first_free base existing
    (existing.length + 1) 1 ⟨k₀, h1, by omega, hfree⟩
  exact ⟨j, hj1, by simp [generate_unique_trip_name, h, heq], hjfree, hjmin⟩

/-- The result of the naming resolver on an unused base name. -/
theorem generate_unique_eq_of_not_mem (base : String) (existing : List String)
    (h : base ∉ existing) : generate_unique_trip_name base existing = base := by
  simp [generate_unique_trip_name, h]

/-- The resolver's result is never one of the existing names. -/
theorem generate_unique_not_mem (base : String) (existing : List String) :
    generate_unique_trip_name base existing ∉ existing := by
  by_cases h : base ∈ existing
  · obtain ⟨k, _, heq, hfree, _⟩ := generate_unique_eq_of_mem base existing h
    rw [heq]
    exact hfree
  · rw [generate_unique_eq_of_not_mem base existing h]
    exact h

/-- The resolver returns the sentinel only when the sentinel itself was
requested. -/
theorem generate_unique_eq_sentinel (base : String) (existing : List String)
    (h : generate_unique_trip_name base existing = "<New Trip>") :
    base = "<New Trip>" := by
  by_cases hmem : base ∈ existing
  · obtain ⟨k, _, heq, _, _⟩ := generate_unique_eq_of_mem base existing hmem
    rw [heq] at h
    exact absurd h (trip_name_candidate_ne_sentinel base k)
  · rw [generate_unique_eq_of_not_mem base existing hmem] at h
    exact h

/-! ### Store round trip -/

theorem decodeStore_encodeStore (s : TripStore) :
    decodeStore (encodeStore s) = some s := by
  induction s with
  | nil => rfl
  | cons p rest ih =>
    obtain ⟨u, m⟩ := p
    simp only [encodeStore, List.map_cons, decodeStore, decodeUsers,
      decodeUserTrips] at *
    rw [ih]

/-! ### The claims -/

/-- C1: `generate_unique_trip_name` returns the base name unchanged
when it is not among the existing names; otherwise it returns the first
free candidate of the form `base ++ " (k)"`, searching k = 1, 2, 3, ...
in increasing order (the suffix is exactly a space, an open paren, the
decimal integer, a close paren - see `trip_name_candidate`); in
particular on "Trip" against {"Trip"} it yields "Trip (1)" and against
{"Trip", "Trip (1)"} it yields "Trip (2)". -/
theorem claim_c1_unique_name_algorithm :
    (∀ base existing, base ∉ existing →
      generate_unique_trip_name base existing = base) ∧
    (∀ base existing, base ∈ existing →
      ∃ k, 1 ≤ k ∧
        generate_unique_trip_name base existing = trip_name_candidate base k ∧
        trip_name_candidate base k ∉ existing ∧
        ∀ j, 1 ≤ j → j < k → trip_name_candidate base j ∈ existing) ∧
    generate_unique_trip_name "Trip" ["Trip"] = "Trip (1)" ∧
    generate_unique_trip_name "Trip" ["Trip", "Trip (1)"] = "Trip (2)" :=
  ⟨generate_unique_eq_of_not_mem, generate_unique_eq_of_mem, rfl, rfl⟩

/-- Witness for C1 at a concrete input. -/
theorem claim_c1_unique_name_algorithm_witness :
    generate_unique_trip_name "Solo" [] = "Solo" :=
  claim_c1_unique_name_algorithm.1 "Solo" [] (by simp)

/-- C2: the naming search always terminates - already within
`existing.length + 1` iterations of the unbounded-counter loop some
candidate is free - and the returned name is never a member of the
existing names. -/
theorem claim_c2_unique_name_total :
    ∀ base existing,
      (searchUnique base existing (existing.length + 1) 1).isSome ∧
      generate_unique_trip_name base existing ∉ existing :=
  fun base existing =>
    ⟨searchUnique_total base existing, generate_unique_not_mem base existing⟩

/-- C3: `load_all_trips` fails open: a missing storage file or any
decode failure yields the empty mapping.  Being a total Lean function
over `FileState`, the model also reflects that the Python function
catches every exception and never raises to its caller. -/
theorem claim_c3_load_fails_open :
    load_all_trips FileState.missing = Json.obj [] ∧
    ∀ raw, load_all_trips (FileState.corrupt raw) = Json.obj [] :=
  ⟨rfl, fun _ => rfl⟩

/-- C4: saving a well-formed state (any value of the `TripStore` type,
that is a username-to-trips-to-profile mapping of JSON-representable
values) and then loading returns an equal state, assuming no
interleaved writer (the same `FileState` thread) and no I/O failure
(`ioOk = true`). -/
theorem claim_c4_round_trip :
    ∀ (S : TripStore) (f : FileState),
      decodeStore (load_all_trips (save_all_trips (encodeStore S) true f)) = some S :=
  fun S _ => decodeStore_encodeStore S

/-- C5: reading back the sub-map just written for a user returns
exactly that map, and every other user's sub-map is unchanged (user
namespaces are fully isolated). -/
theorem claim_c5_user_isolation :
    ∀ (u v : String) (m : PyDict Json) (s : TripStore),
      get_user_trips u (set_user_trips u m s) = m ∧
      (v ≠ u → get_user_trips v (set_user_trips u m s) = get_user_trips v s) :=
  fun u v m s =>
    ⟨get_user_trips_set_same u m s, fun h => get_user_trips_set_other u v m s h⟩

/-- Witness for C5 at concrete distinct users. -/
theorem claim_c5_user_isolation_witness :
    get_user_trips "bob" (set_user_trips "alice" [] []) = get_user_trips "bob" [] :=
  (claim_c5_user_isolation "alice" "bob" [] []).2 (by decide)

/-- C6: saving a trip named "Beach Week" twice in succession for a user
who starts with no trips stores exactly the two distinct entries
"Beach Week" and "Beach Week (1)", in that order. -/
theorem claim_c6_double_save (u : String) (trip : PyDict Json) (s : TripStore)
    (h0 : get_user_trips u s = [])
    (hname : PyDict.get? trip "trip_name" = some (Json.str "Beach Week")) :
    ∃ s1 trip1 s2 trip2,
      save_handler u trip s = some (s1, trip1, SaveOutcome.saved "Beach Week") ∧
      save_handler u trip1 s1 = some (s2, trip2, SaveOutcome.saved "Beach Week (1)") ∧
      PyDict.keys (get_user_trips u s2) = ["Beach Week", "Beach Week (1)"] ∧
      "Beach Week" ≠ "Beach Week (1)" := by
  refine ⟨set_user_trips u
      [("Beach Week", Json.obj (PyDict.set trip "trip_name" (Json.str "Beach Week")))] s,
    PyDict.set trip "trip_name" (Json.str "Beach Week"),
    set_user_trips u
      [("Beach Week", Json.obj (PyDict.set trip "trip_name" (Json.str "Beach Week"))),
       ("Beach Week (1)", Json.obj (PyDict.set
         (PyDict.set trip "trip_name" (Json.str "Beach Week"))
         "trip_name" (Json.str "Beach Week (1)")))]
      (set_user_trips u
        [("Beach Week", Json.obj (PyDict.set trip "trip_name" (Json.str "Beach Week")))] s),
    PyDict.set (PyDict.set trip "trip_name" (Json.str "Beach Week"))
      "trip_name" (Json.str "Beach Week (1)"),
    ?_, ?_, ?_, ?_⟩
  · simp only [save_handler, hname, h0]
    rfl
  · have hname1 : PyDict.get? (PyDict.set trip "trip_name" (Json.str "Beach Week"))
        "trip_name" = some (Json.str "Beach Week") :=
      PyDict.get?_set_self trip "trip_name" (Json.str "Beach Week")
    have h1 : get_user_trips u (set_user_trips u
        [("Beach Week", Json.obj (PyDict.set trip "trip_name" (Json.str "Beach Week")))] s) =
        [("Beach Week", Json.obj (PyDict.set trip "trip_name" (Json.str "Beach Week")))] :=
      get_user_trips_set_same u _ s
    simp only [save_handler, hname1, h1]
    rfl
  · rw [get_user_trips_set_same]
    rfl
  · decide

/-- Witness for C6: the two saves carried out concretely for user
"alice" starting from the empty store. -/
theorem claim_c6_double_save_witness :
    ∃ s1 trip1 s2 trip2,
      save_handler "alice" [("trip_name", Json.str "Beach Week")] [] =
        some (s1, trip1, SaveOutcome.saved "Beach Week") ∧
      save_handler "alice" trip1 s1 = some (s2, trip2, SaveOutcome.saved "Beach Week (1)") ∧
      PyDict.keys (get_user_trips "alice" s2) = ["Beach Week", "Beach Week (1)"] ∧
      "Beach Week" ≠ "Beach Week (1)" :=
  claim_c6_double_save "alice" [("trip_name", Json.str "Beach Week")] [] rfl rfl

/-- C7: deleting a trip name that is not in the user's map leaves the
whole store (hence the user's map and every persisted entry) unchanged,
and - for a real trip name, not the no-selection sentinel - signals the
"Selected trip not found." condition instead of mutating state. -/
theorem claim_c7_delete_not_found (u sel : String) (s : TripStore)
    (h : PyDict.contains (get_user_trips u s) sel = false) :
    (delete_handler u sel s).1 = s ∧
    (sel ≠ "<New Trip>" → (delete_handler u sel s).2 = DeleteOutcome.errorNotFound) := by
  by_cases hs : sel = "<New Trip>"
  · subst hs
    exact ⟨rfl, fun hne => absurd rfl hne⟩
  · refine ⟨?_, fun _ => ?_⟩
    · simp [delete_handler, hs, h]
    · simp [delete_handler, hs, h]

/-- Witness for C7 at a concrete absent name. -/
theorem claim_c7_delete_not_found_witness :
    (delete_handler "alice" "Nowhere" []).1 = ([] : TripStore) ∧
    (delete_handler "alice" "Nowhere" []).2 = DeleteOutcome.errorNotFound := by
  obtain ⟨h1, h2⟩ := claim_c7_delete_not_found "alice" "Nowhere" [] rfl
  exact ⟨h1, h2 (by decide)⟩

/-- C8: the serializer produces the fixed top-level shape
{version, agent_name, description, trip_config} with `trip_config`
holding every trip field in the fixed declaration order, each equal to
the trip's stored value where present and to the declared default where
absent (`tripConfigOfSpec`, written from the spec's description), and
no other transformation; in particular on the empty profile
`trip_direction` is "round_trip" and `default_max_detour_hours` is the
number 2 (the float 2.0 as an exact rational). -/
theorem claim_c8_serializer_shape :
    (∀ trip, build_yaml_from_trip trip = Json.obj
      [("version", Json.str "1.1"),
       ("agent_name", Json.str "roadtrip_trip_planner"),
       ("description", Json.str "User-provided configuration for a road-trip planner AI."),
       ("trip_config", Json.obj (tripConfigOfSpec trip))]) ∧
    Option.bind (Json.getField (build_yaml_from_trip new_empty_trip) "trip_config")
      (fun c => Json.getField c "trip_direction") = some (Json.str "round_trip") ∧
    Option.bind (Json.getField (build_yaml_from_trip new_empty_trip) "trip_config")
      (fun c => Json.getField c "default_max_detour_hours") = some (Json.num 2) :=
  ⟨fun _ => rfl, rfl, rfl⟩

/-- C9 counterexample: the claim "the name the save handler resolves is
never the literal string <New Trip>, so no user's persisted trip map
ever contains that key" fails on the code: a save operation for user
"alice" whose entered trip name is the literal "<New Trip>" (and whose
trip map is empty) persists exactly that key. -/
theorem claim_c9_sentinel_cex :
    (save_handler "alice" [("trip_name", Json.str "<New Trip>")] []).map
      (fun r => PyDict.contains (get_user_trips "alice" r.1) "<New Trip>") = some true :=
  rfl

/-- C9 amended: the naming resolver returns the sentinel "<New Trip>"
only when the requested base name is itself exactly "<New Trip>" (a
generated suffix candidate always ends in a close paren); hence a save
whose stripped entered name differs from the sentinel never persists
the sentinel key. -/
theorem claim_c9_sentinel_amended :
    (∀ base existing, generate_unique_trip_name base existing = "<New Trip>" →
      base = "<New Trip>") ∧
    (∀ u trip s res name, PyDict.get? trip "trip_name" = some (Json.str name) →
      pyStrip name ≠ "<New Trip>" →
      save_handler u trip s = some res →
      ∀ nm, res.2.2 = SaveOutcome.saved nm → nm ≠ "<New Trip>") := by
  refine ⟨generate_unique_eq_sentinel, ?_⟩
  intro u trip s res name hget hne hsave nm hout
  by_cases hempty : pyStrip name = ""
  · simp only [save_handler, hget, if_pos hempty, Option.some.injEq] at hsave
    rw [← hsave] at hout
    simp at hout
  · simp only [save_handler, hget, if_neg hempty, Option.some.injEq] at hsave
    rw [← hsave] at hout
    simp only [] at hout
    have hn := SaveOutcome.saved.inj hout
    intro hcontra
    rw [hcontra] at hn
    exact hne (generate_unique_eq_sentinel _ _ hn)

/-- Witness for the amended C9: a concrete save of the name "Road". -/
theorem claim_c9_sentinel_amended_witness : "Road" ≠ "<New Trip>" :=
  claim_c9_sentinel_amended.2 "alice" [("trip_name", Json.str "Road")] []
    ([("alice", [("Road", Json.obj [("trip_name", Json.str "Road")])])],
     [("trip_name", Json.str "Road")], SaveOutcome.saved "Road")
    "Road" rfl (by decide) rfl "Road" rfl

/-- C10: whenever a save succeeds, the profile is stored under the
resolved unique name and the handler has rewritten the stored profile's
`trip_name` field to that very name: the key and the field agree. -/
theorem claim_c10_saved_name_matches_key (u : String) (trip : PyDict Json)
    (s s2 : TripStore) (trip2 : PyDict Json) (nm : String)
    (h : save_handler u trip s = some (s2, trip2, SaveOutcome.saved nm)) :
    PyDict.get? (get_user_trips u s2) nm = some (Json.obj trip2) ∧
    PyDict.get? trip2 "trip_name" = some (Json.str nm) := by
  rcases hget : PyDict.get? trip "trip_name" with _ | j
  · simp [save_handler, hget] at h
  · cases j with
    | str name =>
      by_cases hempty : pyStrip name = ""
      · simp [save_handler, hget, hempty] at h
      · simp only [save_handler, hget, hempty, if_false, if_neg hempty,
          Option.some.injEq] at h
        rw [Prod.mk.injEq, Prod.mk.injEq] at h
        obtain ⟨hs2, htrip2, hout⟩ := h
        have hn := SaveOutcome.saved.inj hout
        subst hn
        subst hs2
        subst htrip2
        refine ⟨?_, ?_⟩
        · rw [get_user_trips_set_same]
          exact PyDict.get?_set_self _ _ _
        · exact PyDict.get?_set_self _ _ _
    | null => simp [save_handler, hget] at h
    | bool b => simp [save_handler, hget] at h
    | num q => simp [save_handler, hget] at h
    | arr elems => simp [save_handler, hget] at h
    | obj fields => simp [save_handler, hget] at h

/-- Witness for C10: a concrete successful save of "Road". -/
theorem claim_c10_saved_name_matches_key_witness :
    PyDict.get? (get_user_trips "alice"
      [("alice", [("Road", Json.obj [("trip_name", Json.str "Road")])])]) "Road" =
      some (Json.obj [("trip_name", Json.str "Road")]) ∧
    PyDict.get? [("trip_name", Json.str "Road")] "trip_name" = some (Json.str "Road") :=
  claim_c10_saved_name_matches_key "alice" [("trip_name", Json.str "Road")] []
    [("alice", [("Road", Json.obj [("trip_name", Json.str "Road")])])]
    [("trip_name", Json.str "Road")] "Road" rfl
